import Mathlib

/-!
Verification development for the questionnaire dialog control
(src/commonControls/questionnaireControl/QuestionnaireControl.ts and
src/commonControls/questionnaireControl/QuestionnaireControlStructs.ts).

The TypeScript class `QuestionnaireControl` is embedded shallowly: its
serializable state, its props (after merging with defaults), and each method
named by the claims become Lean definitions.  Methods that can throw a
JavaScript `Error` return `Except String`.  Framework pieces that the control
imports but whose sources are not part of this repository snapshot
(`InputUtil`, `Predicates.okIf`, `ControlResultBuilder`, the intent
unpackers) are modelled from the specification; each such definition says so
in its doc comment.
-/

/-- Question of the questionnaire (QuestionnaireControlStructs.ts `Question`).
`targets` and `actions` hold the target-slot and action-slot value ids that
qualify which events may be interpreted as referring to this question. -/
structure Question where
  id : String
  targets : List String
  actions : List String
  deriving Repr, DecidableEq

/-- Choice of the questionnaire (QuestionnaireControlStructs.ts `Choice`). -/
structure Choice where
  id : String
  deriving Repr, DecidableEq

/-- Content of a questionnaire (QuestionnaireControlStructs.ts
`QuestionnaireContent`): the ordered questions, the shared ordered choices,
and the optional implied choice ids for bare yes / bare no utterances. -/
structure QuestionnaireContent where
  questions : List Question
  choices : List Choice
  choiceForYesUtterance : Option String
  choiceForNoUtterance : Option String
  deriving Repr, DecidableEq

/-- Value stored in the `answerId` field of a recorded answer.  The
TypeScript declaration types it `string`, but at runtime
`handlePositiveAnswerWithoutValue` computes
`content.choiceForYesUtterance ?? content.choices[0]`
(QuestionnaireControl.ts line 570), whose fallback is the first `Choice`
OBJECT rather than a choice id string, and is `undefined` when `choices` is
empty; the embedding keeps the three runtime shapes apart. -/
inductive AnswerValue where
  | str (s : String)
  | choiceObj (c : Choice)
  | undef
  deriving Repr, DecidableEq

/-- Recorded answer for one question (the values of
`QuestionnaireUserAnswers`, QuestionnaireControl.ts lines 323-328). -/
structure Answer where
  answerId : AnswerValue
  atRiskOfMisunderstanding : Bool
  deriving Repr, DecidableEq

/-- Answer store: the JS object mapping questionId to answer, kept as an
insertion-ordered association list with unique keys. -/
abbrev QuestionnaireUserAnswers := List (String × Answer)

/-- Property read on the answer-store object. -/
def storeGet (store : QuestionnaireUserAnswers) (qid : String) : Option Answer :=
  (store.find? (fun p => p.1 == qid)).map (fun p => p.2)

/-- Property assignment on the answer-store object
(`this.state.value[questionId] = ...`): overwrite in place when the key is
present, otherwise append. -/
def storeSet (store : QuestionnaireUserAnswers) (qid : String) (a : Answer) :
    QuestionnaireUserAnswers :=
  if store.any (fun p => p.1 == qid) then
    store.map (fun p => if p.1 == qid then (qid, a) else p)
  else store ++ [(qid, a)]

/-- Serializable state of a QuestionnaireControl
(QuestionnaireControl.ts lines 333-354): the answers, the name of the most
recent initiative act, and the question in focus. -/
structure QuestionnaireControlState where
  value : QuestionnaireUserAnswers
  activeInitiative : Option String
  focusQuestionId : Option String
  deriving Repr, DecidableEq

/-- Modelled from the spec: the structured input event (spec section 6).  A
`GeneralControlIntent` carries optional feedback, action and target slot
values, obtained by `unpackGeneralControlIntent`
(intents/GeneralControlIntent.ts, not in this snapshot); every other request
is some other intent, which the guard rejects via
`InputUtil.isIntent(input, GeneralControlIntent.name)`. -/
inductive ControlInput where
  | generalControlIntent (feedback action target : Option String)
  | otherIntent (name : String)
  deriving Repr, DecidableEq

/-- Modelled from the spec: the feedback slot value id of an affirmative
utterance (`$.Feedback.Affirm`, constants/Strings.ts, not in this
snapshot). -/
def feedbackAffirm : String := "builtin_affirm"

/-- Modelled from the spec: `InputUtil.feedbackIsMatchOrUndefined`
(utils/InputUtil.ts, not in this snapshot).  Absence is always a match;
otherwise the slot value must be one of the listed ids. -/
def feedbackIsMatchOrUndefined (feedback : Option String) (valid : List String) : Bool :=
  match feedback with
  | none => true
  | some f => valid.contains f

/-- Modelled from the spec: `InputUtil.actionIsMatchOrUndefined`
(utils/InputUtil.ts, not in this snapshot).  Absence is always a match
(spec section 4.3); otherwise the action id must be among the question
action tags. -/
def actionIsMatchOrUndefined (action : Option String) (valid : List String) : Bool :=
  match action with
  | none => true
  | some a => valid.contains a

/-- Modelled from the spec: `InputUtil.targetIsMatchOrUndefined`
(utils/InputUtil.ts, not in this snapshot).  Absence is always a match
(spec section 4.3); otherwise the target id must be among the question
target tags. -/
def targetIsMatchOrUndefined (target : Option String) (valid : List String) : Bool :=
  match target with
  | none => true
  | some t => valid.contains t

/-- Rendered questionnaire content
(QuestionnaireControl.getRenderedQuestionnaireContent, lines 750-762):
`_.fromPairs` over `(question.id, question)` and `(choice.id, choice)`.
Note that the TypeScript interface declares string values while the runtime
values are the question and choice objects themselves; the embedding keeps
the runtime objects. -/
structure RenderedQuestionnaireContent where
  questions : List (String × Question)
  choices : List (String × Choice)
  deriving Repr, DecidableEq

/-- System acts the modelled control can place in the result builder.
`askQuestionAct` embeds `AskQuestionAct` and `confirmQuestionnaireAnswer`
embeds `ConfirmQuestionnaireAnswer`, both of which extend `InitiativeAct`
(QuestionnaireControlSystemActs.ts); `contentAct` stands for the reactive,
non-initiative acts of the surrounding framework. -/
inductive SystemAct where
  | askQuestionAct (content : QuestionnaireContent)
      (renderedContent : RenderedQuestionnaireContent)
      (answers : QuestionnaireUserAnswers) (questionId : String)
  | confirmQuestionnaireAnswer
  | contentAct (name : String)
  deriving Repr, DecidableEq

/-- Whether an act is an initiative act (its class extends `InitiativeAct`). -/
def SystemAct.isInitiativeAct : SystemAct → Bool
  | .askQuestionAct _ _ _ _ => true
  | .confirmQuestionnaireAnswer => true
  | .contentAct _ => false

/-- Modelled from the spec: `ControlResultBuilder`
(controls/ControlResult.ts, not in this snapshot) accumulates the acts
emitted during one turn (spec sections 2 and 4.2). -/
structure ControlResultBuilder where
  acts : List SystemAct
  deriving Repr, DecidableEq

/-- Append an act (`resultBuilder.addAct`). -/
def ControlResultBuilder.addAct (rb : ControlResultBuilder) (a : SystemAct) :
    ControlResultBuilder :=
  ⟨rb.acts ++ [a]⟩

/-- Modelled from the spec: `resultBuilder.hasInitiativeAct()` reports
whether any accumulated act is an initiative act. -/
def ControlResultBuilder.hasInitiativeAct (rb : ControlResultBuilder) : Bool :=
  rb.acts.any (fun a => a.isInitiativeAct)

/-- Props of a QuestionnaireControl after merging with the defaults
(QuestionnaireControl.mergeWithDefaultProps).  `questionnaireData`,
`required` and `answerConfirmationRequired` may be either static values or
functions of the turn input; both forms are embedded as functions, which
`getQuestionnaireContent` and `evaluateBooleanProp` evaluate per turn.  The
default configuration contributes no custom handling funcs
(`inputHandling.customHandlingFuncs = []`, lines 474-476). -/
structure QuestionnaireControlProps where
  id : String
  questionnaireData : ControlInput → QuestionnaireContent
  required : ControlInput → Bool
  answerConfirmationRequired : ControlInput → Bool

/-- The control: its props, its serializable state, and the two private
instance fields that the guard phase mutates to remember the selected
handler (`this.handleFunc`, `this.initiativeFunc`); the embedding stores the
selected handler by name. -/
structure QuestionnaireControl where
  props : QuestionnaireControlProps
  state : QuestionnaireControlState
  handleFunc : Option String
  initiativeFunc : Option String

/-- Constructor (QuestionnaireControl.ts lines 376-381): fresh state with an
empty answer store; the selected-handler fields start unset. -/
def QuestionnaireControl.construct (props : QuestionnaireControlProps) :
    QuestionnaireControl :=
  ⟨props, ⟨[], none, none⟩, none, none⟩

/-- Method `clear()` (lines 930-933): replace the state with a fresh one; the
private selected-handler fields are not touched. -/
def QuestionnaireControl.clear (c : QuestionnaireControl) : QuestionnaireControl :=
  { c with state := ⟨[], none, none⟩ }

/-- Method `getQuestionnaireContent` (lines 745-748): evaluate the
questionnaireData prop on the turn input. -/
def QuestionnaireControl.getQuestionnaireContent (c : QuestionnaireControl)
    (input : ControlInput) : QuestionnaireContent :=
  c.props.questionnaireData input

/-- Method `getRenderedQuestionnaireContent` (lines 750-762). -/
def QuestionnaireControl.getRenderedQuestionnaireContent (c : QuestionnaireControl)
    (input : ControlInput) : RenderedQuestionnaireContent :=
  let content := c.getQuestionnaireContent input
  ⟨content.questions.map (fun q => (q.id, q)),
   content.choices.map (fun ch => (ch.id, ch))⟩

/-- Method `getQuestionContentById` (lines 951-958): find the question by id and
assert that it exists; a lookup failure throws
`Assertion failed. Question not found. ...` (utils/AssertionUtils.ts). -/
def QuestionnaireControl.getQuestionContentById (c : QuestionnaireControl)
    (questionId : String) (input : ControlInput) : Except String Question :=
  match (c.getQuestionnaireContent input).questions.find? (fun q => q.id == questionId) with
  | some q => .ok q
  | none => .error ("Assertion failed. Question not found. id=" ++ questionId)

/-- Guard of the standard input handler `std::DirectAnswer`
(`isPositiveAnswerWithoutValue`, lines 547-565).  The `okIf` conditions are
evaluated in source order; a failed `okIf` raises a guard failure which
`falseIfGuardFailed` turns into `false`, while the assertion inside
`getQuestionContentById` raises a plain `Error` that `falseIfGuardFailed`
rethrows (utils/Predicates.ts, modelled from the spec). -/
def QuestionnaireControl.isPositiveAnswerWithoutValue (c : QuestionnaireControl)
    (input : ControlInput) : Except String Bool :=
  match c.state.focusQuestionId with
  | none => .ok false
  | some qid =>
    match c.getQuestionContentById qid input with
    | .error e => .error e
    | .ok question =>
      match input with
      | .otherIntent _ => .ok false
      | .generalControlIntent feedback action target =>
        .ok ((feedback.isSome || action.isSome || target.isSome)
          && feedbackIsMatchOrUndefined feedback [feedbackAffirm]
          && actionIsMatchOrUndefined action question.actions
          && targetIsMatchOrUndefined target question.targets)

/-- Method `updateAnswer` (lines 942-949): unconditionally store
`(answerId, atRiskOfMisunderstanding := false)` for the question; no act is
emitted and the result builder is untouched. -/
def QuestionnaireControl.updateAnswer (c : QuestionnaireControl) (questionId : String)
    (answer : AnswerValue) (rb : ControlResultBuilder) :
    QuestionnaireControl × ControlResultBuilder :=
  ({ c with state :=
      { c.state with value := storeSet c.state.value questionId ⟨answer, false⟩ } }, rb)

/-- Effect of the standard input handler `std::DirectAnswer`
(`handlePositiveAnswerWithoutValue`, lines 567-574): look up the focused
question, compute `content.choiceForYesUtterance ?? content.choices[0]`, and
record it via `updateAnswer`.  With `focusQuestionId` unset the non-null
assertion `focusQuestionId!` passes `undefined` to the lookup, whose
assertion then throws. -/
def QuestionnaireControl.handlePositiveAnswerWithoutValue (c : QuestionnaireControl)
    (input : ControlInput) (rb : ControlResultBuilder) :
    Except String (QuestionnaireControl × ControlResultBuilder) :=
  let content := c.getQuestionnaireContent input
  match c.state.focusQuestionId with
  | none => .error "Assertion failed. Question not found. id=undefined"
  | some qid =>
    match c.getQuestionContentById qid input with
    | .error e => .error e
    | .ok question =>
      let positiveAnswer : AnswerValue :=
        match content.choiceForYesUtterance with
        | some y => .str y
        | none =>
          match content.choices.head? with
          | some ch => .choiceObj ch
          | none => .undef
      .ok (c.updateAnswer question.id positiveAnswer rb)

/-- JavaScript strict equality between the stored answer object and a
freshly constructed empty object literal (`this.state.value === \x7b\x7d`,
line 660): `===` on objects compares references, and a fresh literal is a
new reference, so the comparison is false for every store, including the
empty one. -/
def jsStrictEqFreshObject (_store : QuestionnaireUserAnswers) : Bool := false

/-- Guard of the standard initiative handler `std::askLineItem`
(`wantsToAskLineItemQuestion`, lines 658-666).  The source intends to return
false when the questionnaire has not started and `required` evaluates false,
but the emptiness test is the reference comparison embedded by
`jsStrictEqFreshObject`. -/
def QuestionnaireControl.wantsToAskLineItemQuestion (c : QuestionnaireControl)
    (input : ControlInput) : Bool :=
  if jsStrictEqFreshObject c.state.value && !(c.props.required input) then
    false
  else
    true

/-- Effect of the standard initiative handler `std::askLineItem`
(`askLineItemQuestion`, lines 668-683): focus the first question of the
content, record the active initiative act name, and append an
`AskQuestionAct` carrying the content, the rendered content, the current
answers and the focused question id.  With an empty question list the
subscript `content.questions[0]` is `undefined` and reading `.id` throws a
`TypeError`. -/
def QuestionnaireControl.askLineItemQuestion (c : QuestionnaireControl)
    (input : ControlInput) (rb : ControlResultBuilder) :
    Except String (QuestionnaireControl × ControlResultBuilder) :=
  let content := c.getQuestionnaireContent input
  let renderedContent := c.getRenderedQuestionnaireContent input
  match content.questions.head? with
  | none => .error "TypeError: Cannot read property id of undefined"
  | some q0 =>
    let c1 := { c with state := { c.state with focusQuestionId := some q0.id } }
    let act : SystemAct := .askQuestionAct content renderedContent c1.state.value q0.id
    let c2 := { c1 with state := { c1.state with activeInitiative := some "AskQuestionAct" } }
    .ok (c2, rb.addAct act)

/-- Name of the standard input handler (line 484). -/
def stdDirectAnswerName : String := "std::DirectAnswer"

/-- Name of the standard initiative handler (line 578). -/
def stdAskLineItemName : String := "std::askLineItem"

/-- Diagnostic surfaced by `log.error` when more than one guard matched
(canHandle lines 517-522, canTakeInitiative lines 595-600): the names of all
matching handlers, or nothing when at most one matched. -/
def ambiguityDiagnostic (results : List (String × Bool)) : Option (List String) :=
  let matched := results.filter (fun p => p.2)
  if matched.length > 1 then some (matched.map (fun p => p.1)) else none

/-- Method `canHandle` (lines 506-530).  The loop evaluates every guard over the
standard handlers followed by the custom handlers, in configuration order,
collecting the matches; custom handler guards are embedded by their
evaluated results `customResults` (the default configuration has none).  If
at least one matched, the first match is bound into `this.handleFunc` and
the control claims the turn; otherwise it declines. -/
def QuestionnaireControl.canHandle (c : QuestionnaireControl) (input : ControlInput)
    (customResults : List (String × Bool)) :
    Except String (QuestionnaireControl × Bool) :=
  match c.isPositiveAnswerWithoutValue input with
  | .error e => .error e
  | .ok stdOk =>
    let results := (stdDirectAnswerName, stdOk) :: customResults
    let matched := results.filter (fun p => p.2)
    match matched.head? with
    | some m => .ok ({ c with handleFunc := some m.1 }, true)
    | none => .ok (c, false)

/-- Method `canTakeInitiative` (lines 585-608): the identical loop over the
standard initiative handlers (there is no custom initiative handler prop);
the first match is bound into `this.initiativeFunc`. -/
def QuestionnaireControl.canTakeInitiative (c : QuestionnaireControl)
    (input : ControlInput) : QuestionnaireControl × Bool :=
  let results : List (String × Bool) :=
    [(stdAskLineItemName, c.wantsToAskLineItemQuestion input)]
  let matched := results.filter (fun p => p.2)
  match matched.head? with
  | some m => ({ c with initiativeFunc := some m.1 }, true)
  | none => (c, false)

/-- Error thrown by `handle` when no handler was selected (line 538). -/
def handleFuncNotSetMsg : String :=
  "this.handlerFunc not set.  are canHandle/handle out of sync?"

/-- Error thrown by `takeInitiative` when no initiative handler was selected
(lines 621-624). -/
def initiativeFuncNotSetMsg : String :=
  "QuestionnaireControl: takeInitiative called but this.initiativeFunc is not set. canTakeInitiative() should be called first to set this.initiativeFunc."

/-- Method `takeInitiative` (lines 619-628): throw if `this.initiativeFunc` is
unset, otherwise run the bound initiative effect (the sole standard
initiative handler effect is `askLineItemQuestion`). -/
def QuestionnaireControl.takeInitiative (c : QuestionnaireControl)
    (input : ControlInput) (rb : ControlResultBuilder) :
    Except String (QuestionnaireControl × ControlResultBuilder) :=
  match c.initiativeFunc with
  | none => .error initiativeFuncNotSetMsg
  | some _ => c.askLineItemQuestion input rb

/-- Method `handle` (lines 533-545): throw if `this.handleFunc` is unset, otherwise
run the bound reactive effect (in the default configuration the sole input
handler effect is `handlePositiveAnswerWithoutValue`); then, only if the
result builder holds no initiative act, evaluate `canTakeInitiative` and, on
a match, run `takeInitiative`. -/
def QuestionnaireControl.handle (c : QuestionnaireControl) (input : ControlInput)
    (rb : ControlResultBuilder) :
    Except String (QuestionnaireControl × ControlResultBuilder) :=
  match c.handleFunc with
  | none => .error handleFuncNotSetMsg
  | some _ =>
    match c.handlePositiveAnswerWithoutValue input rb with
    | .error e => .error e
    | .ok (c1, rb1) =>
      if rb1.hasInitiativeAct then .ok (c1, rb1)
      else
        let (c2, canInit) := c1.canTakeInitiative input
        if canInit then c2.takeInitiative input rb1 else .ok (c2, rb1)

/-- Sequences of the public operations of the control: construction, clear,
the guard phases, the effect phases (when they return normally), and direct
calls to the public `updateAnswer`. -/
inductive Reachable : QuestionnaireControl → Prop where
  | construct (props : QuestionnaireControlProps) :
      Reachable (QuestionnaireControl.construct props)
  | clear (c : QuestionnaireControl) : Reachable c → Reachable c.clear
  | canHandleStep (c : QuestionnaireControl) (input : ControlInput)
      (customResults : List (String × Bool)) (c' : QuestionnaireControl) (b : Bool) :
      Reachable c → c.canHandle input customResults = .ok (c', b) → Reachable c'
  | canTakeInitiativeStep (c : QuestionnaireControl) (input : ControlInput)
      (c' : QuestionnaireControl) (b : Bool) :
      Reachable c → c.canTakeInitiative input = (c', b) → Reachable c'
  | handleStep (c : QuestionnaireControl) (input : ControlInput)
      (rb : ControlResultBuilder) (c' : QuestionnaireControl) (rb' : ControlResultBuilder) :
      Reachable c → c.handle input rb = .ok (c', rb') → Reachable c'
  | takeInitiativeStep (c : QuestionnaireControl) (input : ControlInput)
      (rb : ControlResultBuilder) (c' : QuestionnaireControl) (rb' : ControlResultBuilder) :
      Reachable c → c.takeInitiative input rb = .ok (c', rb') → Reachable c'
  | updateAnswerStep (c : QuestionnaireControl) (questionId : String)
      (answer : AnswerValue) (rb : ControlResultBuilder) :
      Reachable c → Reachable (c.updateAnswer questionId answer rb).1

/-! Concrete instances used by witnesses, counterexamples and failing-input
evaluations.  They mirror the questionnaire of the demo skill
(demo/QuestionnaireControl/src/index.ts): questions cough and headache with
choices A and B. -/

/-- Content with two questions and choices A, B and no implied yes or no
choice configured. -/
def contentAB : QuestionnaireContent :=
  ⟨[⟨"cough", ["builtin_it"], ["like"]⟩, ⟨"headache", ["builtin_it"], []⟩],
   [⟨"A"⟩, ⟨"B"⟩], none, none⟩

/-- Content like `contentAB` but with the implied yes choice set to A. -/
def contentYesA : QuestionnaireContent :=
  { contentAB with choiceForYesUtterance := some "A" }

/-- Props with static content `contentAB`, required, no answer confirmation. -/
def propsAB : QuestionnaireControlProps :=
  ⟨"healthScreen", fun _ => contentAB, fun _ => true, fun _ => false⟩

/-- Props like `propsAB` but with `required` evaluating to false. -/
def propsNotRequired : QuestionnaireControlProps :=
  ⟨"healthScreen", fun _ => contentAB, fun _ => false, fun _ => false⟩

/-- Props with content `contentYesA` and `answerConfirmationRequired`
evaluating to true. -/
def propsConfirm : QuestionnaireControlProps :=
  ⟨"healthScreen", fun _ => contentYesA, fun _ => true, fun _ => true⟩

/-- A bare affirmative general control intent. -/
def inputAffirm : ControlInput :=
  .generalControlIntent (some feedbackAffirm) none none

/-- A general control intent with only an action slot, no feedback. -/
def inputLike : ControlInput :=
  .generalControlIntent none (some "like") none

/-- A request that is not a general control intent. -/
def inputLaunch : ControlInput := .otherIntent "LaunchRequest"

/-- State with an empty answer store and the cough question in focus. -/
def stateFocusCough : QuestionnaireControlState := ⟨[], none, some "cough"⟩

/-- Control focused on cough with nothing recorded and no handler selected. -/
def cFocusCough : QuestionnaireControl := ⟨propsAB, stateFocusCough, none, none⟩

/-- Control whose guard phase has selected the standard input handler. -/
def cHandleReady : QuestionnaireControl :=
  ⟨propsAB, stateFocusCough, some stdDirectAnswerName, none⟩

/-- Control with cough answered, headache unanswered, and the standard
initiative handler selected. -/
def cCoughAnswered : QuestionnaireControl :=
  ⟨propsAB, ⟨[("cough", ⟨.str "A", false⟩)], none, none⟩, none, some stdAskLineItemName⟩

/-- Control configured with `propsConfirm` (confirmation required), focused
on cough, with the standard input handler selected. -/
def cConfirmReady : QuestionnaireControl :=
  ⟨propsConfirm, stateFocusCough, some stdDirectAnswerName, none⟩

/-- Empty result builder. -/
def rbEmpty : ControlResultBuilder := ⟨[]⟩

/-- Short readable tag for each act constructor, used to state which acts a
turn emitted. -/
def SystemAct.kindName : SystemAct → String
  | .askQuestionAct _ _ _ _ => "AskQuestionAct"
  | .confirmQuestionnaireAnswer => "ConfirmQuestionnaireAnswer"
  | .contentAct n => n

/-! Helper lemmas shared by several claims. -/

/-- The guard of the standard initiative handler is true for every control
and every input: the emptiness test compiles to a reference comparison that
is always false. -/
theorem wantsToAskLineItemQuestion_true (c : QuestionnaireControl) (input : ControlInput) :
    c.wantsToAskLineItemQuestion input = true := by
  simp [QuestionnaireControl.wantsToAskLineItemQuestion, jsStrictEqFreshObject]

/-- Evaluated form of `canTakeInitiative`: the standard initiative handler
always matches, is bound into `initiativeFunc`, and nothing else changes. -/
theorem canTakeInitiative_eq (c : QuestionnaireControl) (input : ControlInput) :
    c.canTakeInitiative input = ({ c with initiativeFunc := some stdAskLineItemName }, true) := by
  simp [QuestionnaireControl.canTakeInitiative, wantsToAskLineItemQuestion_true]

/-- Shape of a successful run of the standard input handler effect: the
result builder is returned untouched and the state change is exactly one
`storeSet` with the at-risk flag false. -/
theorem handlePositiveAnswerWithoutValue_ok (c : QuestionnaireControl) (input : ControlInput)
    (rb : ControlResultBuilder) (c1 : QuestionnaireControl) (rb1 : ControlResultBuilder)
    (h : c.handlePositiveAnswerWithoutValue input rb = .ok (c1, rb1)) :
    rb1 = rb ∧ ∃ qid v, c1 = { c with state :=
      { c.state with value := storeSet c.state.value qid ⟨v, false⟩ } } := by
  unfold QuestionnaireControl.handlePositiveAnswerWithoutValue at h
  rcases hf : c.state.focusQuestionId with _ | qid <;> rw [hf] at h <;> dsimp only at h
  · exact absurd h (by simp)
  · rcases hq : c.getQuestionContentById qid input with e | question <;>
      rw [hq] at h <;> dsimp only at h
    · exact absurd h (by simp)
    · simp only [Except.ok.injEq, Prod.mk.injEq, QuestionnaireControl.updateAnswer] at h
      exact ⟨h.2.symm, question.id, _, h.1.symm⟩

/-! Claim C4. -/

/-- C4: evaluation of the initiative guard at the state the claim singles
out — empty answer store and `required` evaluating to false — yields true,
not false; indeed `wantsToAskLineItemQuestion` returns true for every
control and every input, because `this.state.value === \x7b\x7d` compares
object references and is false even for the empty store.  The control
therefore never stays silent, contradicting both the claim and the comment
inside the guard. -/
theorem c4_completion_gating_broken :
    QuestionnaireControl.wantsToAskLineItemQuestion
        (QuestionnaireControl.construct propsNotRequired) inputLaunch = true
    ∧ (QuestionnaireControl.construct propsNotRequired).state.value = []
    ∧ propsNotRequired.required inputLaunch = false
    ∧ ∀ (c : QuestionnaireControl) (input : ControlInput),
        c.wantsToAskLineItemQuestion input = true :=
  ⟨rfl, rfl, rfl, wantsToAskLineItemQuestion_true⟩

/-! Claim C3. -/

/-- C3: with no implied choice configured and choices A, B, handling an
affirmative generic event while cough is in focus records
`content.choices[0]` — the FIRST choice (as a raw choice object with id A) —
not the last choice B that the claim and the `choiceForYesUtterance` doc
comment promise. -/
theorem c3_default_implied_choice_is_first :
    (QuestionnaireControl.handlePositiveAnswerWithoutValue cFocusCough inputAffirm rbEmpty).map
        (fun r => storeGet r.1.state.value "cough")
      = .ok (some ⟨.choiceObj ⟨"A"⟩, false⟩)
    ∧ contentAB.choiceForYesUtterance = none
    ∧ contentAB.choices.getLast? = some ⟨"B"⟩ := by
  refine ⟨?_, rfl, rfl⟩
  rfl

/-! Claim C6. -/

/-- C6: with `answerConfirmationRequired` evaluating to true, a turn that
records an implied-yes answer (the low-confidence inference path the spec
flags at risk) emits a single `AskQuestionAct` and no
`ConfirmQuestionnaireAnswer`: `updateAnswer` ignores the confirmation
configuration, stores the at-risk flag as false, and control falls through
to the generic initiative step, contradicting the claim and the
`answerConfirmationRequired` prop documentation. -/
theorem c6_confirmation_branch_missing :
    cConfirmReady.props.answerConfirmationRequired inputAffirm = true
    ∧ (QuestionnaireControl.handle cConfirmReady inputAffirm rbEmpty).map
          (fun r => (r.2.acts.map SystemAct.kindName, storeGet r.1.state.value "cough"))
        = .ok (["AskQuestionAct"], some ⟨.str "A", false⟩) := by
  exact ⟨rfl, rfl⟩

/-! Claim C8. -/

/-- C8: invoking an effect-apply operation without a preceding successful
guard resolution raises immediately: `handle` throws when `canHandle` has
not bound a handler, and `takeInitiative` throws when `canTakeInitiative`
has not bound an initiative handler. -/
theorem c8_unresolved_effect_throws (c : QuestionnaireControl) (input : ControlInput)
    (rb : ControlResultBuilder) :
    (c.handleFunc = none → c.handle input rb = .error handleFuncNotSetMsg)
    ∧ (c.initiativeFunc = none → c.takeInitiative input rb = .error initiativeFuncNotSetMsg) := by
  constructor
  · intro h
    unfold QuestionnaireControl.handle
    rw [h]
  · intro h
    unfold QuestionnaireControl.takeInitiative
    rw [h]

/-- Witness for C8 at a freshly constructed control, whose two
selected-handler fields are both unset. -/
theorem c8_witness :
    (QuestionnaireControl.construct propsAB).handle inputAffirm rbEmpty
        = .error handleFuncNotSetMsg
    ∧ (QuestionnaireControl.construct propsAB).takeInitiative inputAffirm rbEmpty
        = .error initiativeFuncNotSetMsg :=
  ⟨(c8_unresolved_effect_throws (QuestionnaireControl.construct propsAB) inputAffirm rbEmpty).1 rfl,
   (c8_unresolved_effect_throws (QuestionnaireControl.construct propsAB) inputAffirm rbEmpty).2 rfl⟩

/-! Claim C5. -/

/-- C5 counterexample: with cough already answered and headache unanswered,
the fired initiative effect focuses cough — the very first question — not
the first question whose answer-store entry is unset, refuting the claimed
selection policy at this concrete state. -/
theorem c5_counterexample :
    (QuestionnaireControl.askLineItemQuestion cCoughAnswered inputLaunch rbEmpty).map
        (fun r => r.1.state.focusQuestionId) = .ok (some "cough")
    ∧ storeGet cCoughAnswered.state.value "cough" = some ⟨.str "A", false⟩
    ∧ storeGet cCoughAnswered.state.value "headache" = none :=
  ⟨rfl, rfl, rfl⟩

/-- C5 (amended): whenever the built-in initiative effect fires on content
with at least one question, it selects the very FIRST question in model
order regardless of the answer store, sets the focus to it, records the
active initiative name `AskQuestionAct`, and appends a single
`AskQuestionAct` carrying the full content, the rendered content, the full
current answer store and the selected question id. -/
theorem c5_selects_first_question (c : QuestionnaireControl) (input : ControlInput)
    (rb : ControlResultBuilder) (q0 : Question) (rest : List Question)
    (h : (c.getQuestionnaireContent input).questions = q0 :: rest) :
    c.askLineItemQuestion input rb = .ok
      ({ c with state := { c.state with
            activeInitiative := some "AskQuestionAct",
            focusQuestionId := some q0.id } },
       rb.addAct (.askQuestionAct (c.getQuestionnaireContent input)
          (c.getRenderedQuestionnaireContent input) c.state.value q0.id)) := by
  simp [QuestionnaireControl.askLineItemQuestion, h]

/-- Witness for C5 at the control with cough answered: the effect focuses
cough (the first question) and emits the ask-question act for it. -/
theorem c5_witness :
    cCoughAnswered.askLineItemQuestion inputLaunch rbEmpty = .ok
      ({ cCoughAnswered with state := { cCoughAnswered.state with
            activeInitiative := some "AskQuestionAct",
            focusQuestionId := some "cough" } },
       rbEmpty.addAct (.askQuestionAct (cCoughAnswered.getQuestionnaireContent inputLaunch)
          (cCoughAnswered.getRenderedQuestionnaireContent inputLaunch)
          cCoughAnswered.state.value "cough")) := by
  exact c5_selects_first_question cCoughAnswered inputLaunch rbEmpty
    ⟨"cough", ["builtin_it"], ["like"]⟩ [⟨"headache", ["builtin_it"], []⟩] rfl

/-! Claim C9. -/

/-- Shared shape lemma: a successful `canHandle` changes nothing but the
`handleFunc` field. -/
theorem canHandle_ok_shape (c : QuestionnaireControl) (input : ControlInput)
    (customResults : List (String × Bool)) (c' : QuestionnaireControl) (b : Bool)
    (h : c.canHandle input customResults = .ok (c', b)) :
    c'.state = c.state ∧ c'.props = c.props ∧ c'.initiativeFunc = c.initiativeFunc := by
  unfold QuestionnaireControl.canHandle at h
  rcases hg : c.isPositiveAnswerWithoutValue input with e | stdOk <;>
    rw [hg] at h <;> dsimp only at h
  · exact absurd h (by simp)
  · split at h <;>
      · simp only [Except.ok.injEq, Prod.mk.injEq] at h
        obtain ⟨h1, -⟩ := h
        subst h1
        exact ⟨rfl, rfl, rfl⟩

/-- C9 counterexample: on a control with no handler selected, evaluating
`canHandle` on a matching affirmative input binds `std::DirectAnswer` into
the instance field `handleFunc`, so the control instance is NOT left
unchanged by guard resolution. -/
theorem c9_counterexample :
    cFocusCough.handleFunc = none
    ∧ (QuestionnaireControl.canHandle cFocusCough inputAffirm []).map
        (fun r => (r.1.handleFunc, r.2)) = .ok (some stdDirectAnswerName, true) :=
  ⟨rfl, rfl⟩

/-- C9 (amended): guard resolution is pure with respect to the STORED state —
`canHandle` and `canTakeInitiative` leave the answer store, the focus, the
active initiative and the props untouched — but each binds the selected
handler into the corresponding private instance field (`handleFunc`,
`initiativeFunc`), which is the only mutation. -/
theorem c9_guards_pure_on_state (c : QuestionnaireControl) (input : ControlInput) :
    (∀ customResults c' b, c.canHandle input customResults = .ok (c', b) →
        c'.state = c.state ∧ c'.props = c.props ∧ c'.initiativeFunc = c.initiativeFunc)
    ∧ (∀ c₂ b₂, c.canTakeInitiative input = (c₂, b₂) →
        c₂.state = c.state ∧ c₂.props = c.props ∧ c₂.handleFunc = c.handleFunc) := by
  constructor
  · intro customResults c' b h
    exact canHandle_ok_shape c input customResults c' b h
  · intro c₂ b₂ h
    rw [canTakeInitiative_eq] at h
    simp only [Prod.mk.injEq] at h
    obtain ⟨h1, -⟩ := h
    subst h1
    exact ⟨rfl, rfl, rfl⟩

/-- Witness for C9 at the focused control and the affirmative input. -/
theorem c9_witness :
    ((QuestionnaireControl.canHandle cFocusCough inputAffirm [] = .ok
        ({ cFocusCough with handleFunc := some stdDirectAnswerName }, true))
    ∧ ({ cFocusCough with handleFunc := some stdDirectAnswerName } :
          QuestionnaireControl).state = cFocusCough.state)
    ∧ ∀ c₂ b₂, cFocusCough.canTakeInitiative inputAffirm = (c₂, b₂) →
        c₂.state = cFocusCough.state ∧ c₂.props = cFocusCough.props
          ∧ c₂.handleFunc = cFocusCough.handleFunc := by
  have h := c9_guards_pure_on_state cFocusCough inputAffirm
  exact ⟨⟨rfl, (h.1 [] _ true rfl).1⟩, h.2⟩

/-! Claim C10. -/

/-- Invariant: every answer recorded in a store carries
`atRiskOfMisunderstanding = false`. -/
def AllSafe (store : QuestionnaireUserAnswers) : Prop :=
  ∀ p ∈ store, p.2.atRiskOfMisunderstanding = false

/-- Writing an answer with the at-risk flag false preserves the invariant. -/
theorem allSafe_storeSet {store : QuestionnaireUserAnswers} (qid : String)
    (v : AnswerValue) (h : AllSafe store) : AllSafe (storeSet store qid ⟨v, false⟩) := by
  unfold storeSet
  split
  · intro p hp
    rcases List.mem_map.mp hp with ⟨p', hp', rfl⟩
    by_cases hq : p'.1 == qid
    · simp [hq]
    · simp only [hq, if_false, Bool.false_eq_true]
      exact h p' hp'
  · intro p hp
    rcases List.mem_append.mp hp with h1 | h1
    · exact h p h1
    · simp only [List.mem_singleton] at h1
      subst h1
      rfl

/-- The initiative effect never touches the answer store. -/
theorem askLineItemQuestion_value (c : QuestionnaireControl) (input : ControlInput)
    (rb : ControlResultBuilder) (c' : QuestionnaireControl) (rb' : ControlResultBuilder)
    (h : c.askLineItemQuestion input rb = .ok (c', rb')) :
    c'.state.value = c.state.value := by
  unfold QuestionnaireControl.askLineItemQuestion at h
  dsimp only at h
  rcases hq : (c.getQuestionnaireContent input).questions.head? with _ | q0 <;>
    rw [hq] at h <;> dsimp only at h
  · exact absurd h (by simp)
  · simp only [Except.ok.injEq, Prod.mk.injEq] at h
    obtain ⟨h1, -⟩ := h
    subst h1
    rfl

/-- A successful `takeInitiative` never touches the answer store. -/
theorem takeInitiative_value (c : QuestionnaireControl) (input : ControlInput)
    (rb : ControlResultBuilder) (c' : QuestionnaireControl) (rb' : ControlResultBuilder)
    (h : c.takeInitiative input rb = .ok (c', rb')) :
    c'.state.value = c.state.value := by
  unfold QuestionnaireControl.takeInitiative at h
  rcases hf : c.initiativeFunc with _ | f <;> rw [hf] at h <;> dsimp only at h
  · exact absurd h (by simp)
  · exact askLineItemQuestion_value c input rb c' rb' h

/-- A successful `handle` preserves the all-safe invariant: the only store
write on the path is `updateAnswer`, which writes the flag false. -/
theorem handle_allSafe (c : QuestionnaireControl) (input : ControlInput)
    (rb : ControlResultBuilder) (c' : QuestionnaireControl) (rb' : ControlResultBuilder)
    (h : c.handle input rb = .ok (c', rb')) (hs : AllSafe c.state.value) :
    AllSafe c'.state.value := by
  unfold QuestionnaireControl.handle at h
  rcases hf : c.handleFunc with _ | f <;> rw [hf] at h <;> dsimp only at h
  · exact absurd h (by simp)
  · rcases hp : c.handlePositiveAnswerWithoutValue input rb with e | pr <;>
      rw [hp] at h <;> dsimp only at h
    · exact absurd h (by simp)
    · obtain ⟨c1, rb1⟩ := pr
      obtain ⟨-, qid, v, hc1⟩ := handlePositiveAnswerWithoutValue_ok c input rb c1 rb1 hp
      have hs1 : AllSafe c1.state.value := by
        rw [hc1]
        exact allSafe_storeSet qid v hs
      by_cases hi : rb1.hasInitiativeAct
      · rw [if_pos hi] at h
        simp only [Except.ok.injEq, Prod.mk.injEq] at h
        obtain ⟨h1, -⟩ := h
        subst h1
        exact hs1
      · rw [if_neg hi] at h
        rw [canTakeInitiative_eq] at h
        dsimp only at h
        rw [if_pos rfl] at h
        have := takeInitiative_value _ input rb1 c' rb' h
        rw [this]
        exact hs1

/-- C10: after any sequence of the public operations of the control, every
answer found in the answer store has `atRiskOfMisunderstanding = false`:
`updateAnswer` writes the flag false unconditionally, no other operation
writes the store, and the store starts empty. -/
theorem c10_no_stored_answer_at_risk (c : QuestionnaireControl) (h : Reachable c) :
    ∀ qid a, storeGet c.state.value qid = some a → a.atRiskOfMisunderstanding = false := by
  have key : AllSafe c.state.value := by
    induction h with
    | construct props => intro p hp; simp [QuestionnaireControl.construct] at hp
    | clear c hc ih  => intro p hp; simp [QuestionnaireControl.clear] at hp
    | canHandleStep c input customResults c' b hc hstep ih =>
        have hshape := canHandle_ok_shape c input customResults c' b hstep
        rw [hshape.1]
        exact ih
    | canTakeInitiativeStep c input c' b hc hstep ih =>
        rw [canTakeInitiative_eq] at hstep
        simp only [Prod.mk.injEq] at hstep
        obtain ⟨h1, -⟩ := hstep
        subst h1
        exact ih
    | handleStep c input rb c' rb' hc hstep ih =>
        exact handle_allSafe c input rb c' rb' hstep ih
    | takeInitiativeStep c input rb c' rb' hc hstep ih =>
        rw [takeInitiative_value c input rb c' rb' hstep]
        exact ih
    | updateAnswerStep c questionId answer rb hc ih =>
        exact allSafe_storeSet questionId answer ih
  intro qid a hget
  unfold storeGet at hget
  rcases hfind : c.state.value.find? (fun p => p.1 == qid) with _ | p <;>
    rw [hfind] at hget
  · exact absurd hget (by simp)
  · simp only [Option.map_some', Option.some.injEq] at hget
    subst hget
    exact key p (List.mem_of_find?_eq_some hfind)

/-- Witness for C10: the control obtained by constructing and then calling
`updateAnswer` once is reachable and stores the written answer with the
at-risk flag false. -/
theorem c10_witness :
    Answer.atRiskOfMisunderstanding ⟨.str "B", false⟩ = false := by
  exact c10_no_stored_answer_at_risk
    ((QuestionnaireControl.construct propsAB).updateAnswer "cough" (.str "B") rbEmpty).1
    (Reachable.updateAnswerStep _ "cough" (.str "B") rbEmpty (Reachable.construct propsAB))
    "cough" ⟨.str "B", false⟩ rfl

/-! Claim C2. -/

/-- Content of the ambiguity diagnostic: it fires exactly when at least two
guards matched, and it names every matching handler. -/
theorem ambiguityDiagnostic_spec (results : List (String × Bool)) (names : List String)
    (h : ambiguityDiagnostic results = some names) :
    2 ≤ (results.filter (fun p => p.2)).length
    ∧ names = (results.filter (fun p => p.2)).map (fun p => p.1) := by
  unfold ambiguityDiagnostic at h
  dsimp only at h
  split at h
  · next hgt => exact ⟨hgt, by simpa using h.symm⟩
  · exact absurd h (by simp)

/-- Resolution policy of `canTakeInitiative`: it reports a match exactly
when the guard of the sole standard initiative handler is true, and then it
binds that handler. -/
theorem canTakeInitiative_policy (c : QuestionnaireControl) (input : ControlInput)
    (c₂ : QuestionnaireControl) (b₂ : Bool) (h : c.canTakeInitiative input = (c₂, b₂)) :
    (b₂ = true ↔ c.wantsToAskLineItemQuestion input = true)
    ∧ (b₂ = true → c₂.initiativeFunc = some stdAskLineItemName) := by
  rw [canTakeInitiative_eq] at h
  simp only [Prod.mk.injEq] at h
  obtain ⟨h1, h2⟩ := h
  subst h1
  subst h2
  exact ⟨⟨fun _ => wantsToAskLineItemQuestion_true c input, fun _ => rfl⟩, fun _ => rfl⟩

/-- C2: handler resolution evaluates the guards of the standard handlers
followed by the custom handlers in configuration order and selects the
first handler whose guard returned true; with zero matches the control
declines the turn; with two or more matches it still selects the earliest
while the diagnostic names all matches; and initiative resolution follows
the same first-match policy over the initiative handlers. -/
theorem c2_first_match_policy (c : QuestionnaireControl) (input : ControlInput)
    (customResults : List (String × Bool)) (c' : QuestionnaireControl) (b : Bool)
    (h : c.canHandle input customResults = .ok (c', b)) :
    ∃ stdOk, c.isPositiveAnswerWithoutValue input = .ok stdOk
      ∧ (b = false ↔ ∀ p ∈ (stdDirectAnswerName, stdOk) :: customResults, p.2 = false)
      ∧ (b = true → ∃ pre m post,
            (stdDirectAnswerName, stdOk) :: customResults = pre ++ m :: post
            ∧ (∀ y ∈ pre, y.2 = false) ∧ m.2 = true ∧ c'.handleFunc = some m.1)
      ∧ (∀ names,
            ambiguityDiagnostic ((stdDirectAnswerName, stdOk) :: customResults) = some names →
            2 ≤ ((((stdDirectAnswerName, stdOk) :: customResults).filter
                    (fun p => p.2)).map (fun p => p.1)).length
            ∧ names = (((stdDirectAnswerName, stdOk) :: customResults).filter
                    (fun p => p.2)).map (fun p => p.1))
      ∧ (∀ c₂ b₂, c.canTakeInitiative input = (c₂, b₂) →
            (b₂ = true ↔ c.wantsToAskLineItemQuestion input = true)
            ∧ (b₂ = true → c₂.initiativeFunc = some stdAskLineItemName)) := by
  unfold QuestionnaireControl.canHandle at h
  rcases hg : c.isPositiveAnswerWithoutValue input with e | stdOk <;>
    rw [hg] at h <;> dsimp only at h
  · exact absurd h (by simp)
  · refine ⟨stdOk, rfl, ?_⟩
    rcases hh : (((stdDirectAnswerName, stdOk) :: customResults).filter
        (fun p => p.2)).head? with _ | m <;> rw [hh] at h <;> dsimp only at h <;>
      simp only [Except.ok.injEq, Prod.mk.injEq] at h <;> obtain ⟨hc', hb⟩ := h <;>
      subst hc' <;> subst hb
    · rw [List.filter_head?] at hh
      refine ⟨?_, ?_, ?_, ?_⟩
      · constructor
        · intro _ p hp
          have := List.find?_eq_none.mp hh p hp
          simpa using this
        · intro _; rfl
      · intro hfalse; exact absurd hfalse (by simp)
      · intro names hdiag
        obtain ⟨hlen, hnames⟩ := ambiguityDiagnostic_spec _ names hdiag
        exact ⟨by simpa using hlen, hnames⟩
      · intro c₂ b₂ hti; exact canTakeInitiative_policy c input c₂ b₂ hti
    · rw [List.filter_head?] at hh
      obtain ⟨hm, pre, post, heq, hpre⟩ := List.find?_eq_some.mp hh
      refine ⟨?_, ?_, ?_, ?_⟩
      · constructor
        · intro hfalse; exact absurd hfalse (by simp)
        · intro hall
          have hmem : m ∈ (stdDirectAnswerName, stdOk) :: customResults :=
            List.mem_of_find?_eq_some hh
          exact absurd (hall m hmem) (by simp [hm])
      · intro _
        exact ⟨pre, m, post, heq, fun y hy => by simpa using hpre y hy, hm, rfl⟩
      · intro names hdiag
        obtain ⟨hlen, hnames⟩ := ambiguityDiagnostic_spec _ names hdiag
        exact ⟨by simpa using hlen, hnames⟩
      · intro c₂ b₂ hti; exact canTakeInitiative_policy c input c₂ b₂ hti

/-- Witness for C2: the focused control on an affirmative input, with one
custom handler whose guard also matched — the diagnostic case; the earliest
match `std::DirectAnswer` is selected. -/
theorem c2_witness :
    ∃ stdOk, cFocusCough.isPositiveAnswerWithoutValue inputAffirm = .ok stdOk
      ∧ ((true : Bool) = false ↔
            ∀ p ∈ (stdDirectAnswerName, stdOk) :: [("custom", true)], p.2 = false)
      ∧ ((true : Bool) = true → ∃ pre m post,
            (stdDirectAnswerName, stdOk) :: [("custom", true)] = pre ++ m :: post
            ∧ (∀ y ∈ pre, y.2 = false) ∧ m.2 = true
            ∧ ({ cFocusCough with handleFunc := some stdDirectAnswerName } :
                  QuestionnaireControl).handleFunc = some m.1)
      ∧ (∀ names,
            ambiguityDiagnostic ((stdDirectAnswerName, stdOk) :: [("custom", true)])
              = some names →
            2 ≤ ((((stdDirectAnswerName, stdOk) :: [("custom", true)]).filter
                    (fun p => p.2)).map (fun p => p.1)).length
            ∧ names = (((stdDirectAnswerName, stdOk) :: [("custom", true)]).filter
                    (fun p => p.2)).map (fun p => p.1))
      ∧ (∀ c₂ b₂, cFocusCough.canTakeInitiative inputAffirm = (c₂, b₂) →
            (b₂ = true ↔ cFocusCough.wantsToAskLineItemQuestion inputAffirm = true)
            ∧ (b₂ = true → c₂.initiativeFunc = some stdAskLineItemName)) :=
  c2_first_match_policy cFocusCough inputAffirm [("custom", true)]
    { cFocusCough with handleFunc := some stdDirectAnswerName } true rfl

/-! Claim C1. -/

/-- The initiative effect appends exactly one act, and that act is an
initiative act. -/
theorem askLineItemQuestion_acts (c : QuestionnaireControl) (input : ControlInput)
    (rb : ControlResultBuilder) (c' : QuestionnaireControl) (rb' : ControlResultBuilder)
    (h : c.askLineItemQuestion input rb = .ok (c', rb')) :
    ∃ a, rb' = rb.addAct a ∧ a.isInitiativeAct = true := by
  unfold QuestionnaireControl.askLineItemQuestion at h
  dsimp only at h
  rcases hq : (c.getQuestionnaireContent input).questions.head? with _ | q0 <;>
    rw [hq] at h <;> dsimp only at h
  · exact absurd h (by simp)
  · simp only [Except.ok.injEq, Prod.mk.injEq] at h
    obtain ⟨-, h2⟩ := h
    exact ⟨_, h2.symm, rfl⟩

/-- C1: a single `handle` call appends at most one initiative act to the
result builder, and the initiative step runs only after the reactive effect
has completed and only when the builder holds no initiative act at that
point — in particular, had the reactive effect produced a builder already
containing an initiative act, the turn would end with exactly that reactive
result. -/
theorem c1_at_most_one_initiative (c : QuestionnaireControl) (input : ControlInput)
    (rb : ControlResultBuilder) (c' : QuestionnaireControl) (rb' : ControlResultBuilder)
    (h : c.handle input rb = .ok (c', rb')) :
    (∃ newActs, rb'.acts = rb.acts ++ newActs
        ∧ (newActs.filter (fun a => a.isInitiativeAct)).length ≤ 1)
    ∧ (∀ c1 rb1, c.handlePositiveAnswerWithoutValue input rb = .ok (c1, rb1) →
        rb1.hasInitiativeAct = true → c' = c1 ∧ rb' = rb1) := by
  unfold QuestionnaireControl.handle at h
  rcases hf : c.handleFunc with _ | f <;> rw [hf] at h <;> dsimp only at h
  · exact absurd h (by simp)
  · rcases hp : c.handlePositiveAnswerWithoutValue input rb with e | pr <;>
      rw [hp] at h <;> dsimp only at h
    · exact absurd h (by simp)
    · obtain ⟨c1, rb1⟩ := pr
      obtain ⟨hrb1, -⟩ := handlePositiveAnswerWithoutValue_ok c input rb c1 rb1 hp
      subst hrb1
      by_cases hi : rb1.hasInitiativeAct
      · rw [if_pos hi] at h
        simp only [Except.ok.injEq, Prod.mk.injEq] at h
        obtain ⟨hc', hrb'⟩ := h
        subst hc'
        subst hrb'
        constructor
        · exact ⟨[], by simp, by simp⟩
        · intro c1' rb1' hp' _
          have h12 : c1 = c1' ∧ rb1 = rb1' := by simpa using hp'
          exact h12
      · rw [if_neg hi] at h
        rw [canTakeInitiative_eq] at h
        dsimp only at h
        rw [if_pos rfl] at h
        unfold QuestionnaireControl.takeInitiative at h
        dsimp only at h
        obtain ⟨a, hrb', ha⟩ := askLineItemQuestion_acts _ input rb1 c' rb' h
        constructor
        · subst hrb'
          exact ⟨[a], by simp [ControlResultBuilder.addAct], by simp [ha]⟩
        · intro c1' rb1' hp' hi'
          have h12 : c1 = c1' ∧ rb1 = rb1' := by simpa using hp'
          rw [← h12.2] at hi'
          exact absurd hi' hi

/-- Control resulting from one full `handle` turn on `cHandleReady` with the
affirmative input. -/
def cAfterHandle : QuestionnaireControl :=
  ⟨propsAB, ⟨[("cough", ⟨.choiceObj ⟨"A"⟩, false⟩)], some "AskQuestionAct", some "cough"⟩,
   some stdDirectAnswerName, some stdAskLineItemName⟩

/-- Result builder after that turn: the single emitted ask-question act. -/
def rbAfterHandle : ControlResultBuilder :=
  ⟨[.askQuestionAct contentAB
      ⟨[("cough", ⟨"cough", ["builtin_it"], ["like"]⟩),
        ("headache", ⟨"headache", ["builtin_it"], []⟩)],
       [("A", ⟨"A"⟩), ("B", ⟨"B"⟩)]⟩
      [("cough", ⟨.choiceObj ⟨"A"⟩, false⟩)] "cough"]⟩

/-- Witness for C1: one full turn on the ready control emits exactly one
initiative act. -/
theorem c1_witness :
    (∃ newActs, rbAfterHandle.acts = rbEmpty.acts ++ newActs
        ∧ (newActs.filter (fun a => a.isInitiativeAct)).length ≤ 1)
    ∧ (∀ c1 rb1,
        cHandleReady.handlePositiveAnswerWithoutValue inputAffirm rbEmpty = .ok (c1, rb1) →
        rb1.hasInitiativeAct = true → cAfterHandle = c1 ∧ rbAfterHandle = rb1) :=
  c1_at_most_one_initiative cHandleReady inputAffirm rbEmpty cAfterHandle rbAfterHandle rfl

/-! Claim C7. -/

/-- C7 counterexample: the guard returns true on an event that carries NO
feedback slot at all (polarity absent, only a matching action), so
affirmative polarity is not necessary for the guard to accept — refuting
the claim that the guard returns true only when the polarity is
affirmative. -/
theorem c7_counterexample :
    QuestionnaireControl.isPositiveAnswerWithoutValue cFocusCough inputLike = .ok true
    ∧ inputLike = ControlInput.generalControlIntent none (some "like") none :=
  ⟨rfl, rfl⟩

/-- C7 (amended): the guard returns true exactly when a question is in
focus and found in the content, the event is a general control intent with
at least one of feedback, action, target present, the feedback is absent or
affirmative, and any action or target qualifier matches the focused
question tags or is absent. -/
theorem c7_guard_characterization (c : QuestionnaireControl) (input : ControlInput) :
    c.isPositiveAnswerWithoutValue input = .ok true ↔
      ∃ qid question, c.state.focusQuestionId = some qid
        ∧ (c.getQuestionnaireContent input).questions.find?
            (fun q => q.id == qid) = some question
        ∧ ∃ feedback action target,
            input = .generalControlIntent feedback action target
            ∧ (feedback.isSome || action.isSome || target.isSome) = true
            ∧ (feedback = none ∨ feedback = some feedbackAffirm)
            ∧ (action = none ∨ ∃ a, action = some a ∧ a ∈ question.actions)
            ∧ (target = none ∨ ∃ t, target = some t ∧ t ∈ question.targets) := by
  unfold QuestionnaireControl.isPositiveAnswerWithoutValue
    QuestionnaireControl.getQuestionContentById
  rcases hf : c.state.focusQuestionId with _ | qid
  · simp
  · rcases hq : (c.getQuestionnaireContent input).questions.find?
        (fun q => q.id == qid) with _ | question
    · constructor
      · intro h
        simp [hq] at h
      · rintro ⟨qid', question', hfoc, hfind, -⟩
        simp only [Option.some.injEq] at hfoc
        subst hfoc
        rw [hq] at hfind
        exact absurd hfind (by simp)
    · rcases input with ⟨f, a, t⟩ | nm
      · rcases f with _ | fv <;> rcases a with _ | av <;> rcases t with _ | tv <;>
          simp [hq, feedbackIsMatchOrUndefined, actionIsMatchOrUndefined,
            targetIsMatchOrUndefined, List.elem_iff, and_assoc]
      · simp [hq]
